import Mathlib

/-!
# Verification of the Gorgias-to-Seal API bridge

Shallow embedding of the two implementation variants of the bridge server
(`src/seal-node-app/server.js`, called `V1` below, and the second variant
`src/unnamed/part_000`, called `V2` below), together with proofs about the
request handlers and the upstream gateway.

JavaScript values occurring in request/response bodies are modelled by the
`Json` inductive (JSON numbers are restricted to integers, which covers every
value the claims exercise; `undefined` is modelled by `Option.none` at access
sites).  Handlers are modelled as pure functions from the request data and the
upstream responses (each an `Except` value, whose `.error` case models a
transport-level failure thrown by `fetch` and caught by the handler's
`try/catch`) to the HTTP response together with the list of upstream calls
issued.  The JavaScript `Number(...)` conversion of a path parameter is
modelled by an `Option Int` input (`none` models `NaN`).
-/

namespace SealBridge

/-- JSON values (numbers restricted to integers). -/
inductive Json where
  | null : Json
  | bool : Bool → Json
  | num : Int → Json
  | str : String → Json
  | arr : List Json → Json
  | obj : List (String × Json) → Json
deriving Repr

namespace Json

/-- Property access `v.k` on a JSON value: defined (`some`) only on objects
with the field present; every other case is JavaScript `undefined` (`none`). -/
def get (j : Json) (k : String) : Option Json :=
  match j with
  | .obj fields => (fields.find? (fun p => p.1 == k)).map (·.2)
  | _ => none

/-- JavaScript truthiness of a JSON value. -/
def truthy : Json → Bool
  | .null => false
  | .bool b => b
  | .num n => n != 0
  | .str s => s ≠ ""
  | .arr _ => true
  | .obj _ => true

/-- `Array.isArray` / extraction of the element list of a JSON array. -/
def asArr : Json → Option (List Json)
  | .arr xs => some xs
  | _ => none

end Json

/-- Optional-chaining property access: `x?.k` where `x` may be `undefined`. -/
def jsGet (x : Option Json) (k : String) : Option Json :=
  x.bind (fun j => j.get k)

/-- `Array.isArray` test lifted to a possibly-`undefined` value. -/
def jsIsArr (x : Option Json) : Option (List Json) :=
  x.bind Json.asArr

/-- JavaScript `x || y` for a possibly-`undefined` `x` and a JSON default:
yields `x` when it is defined and truthy, otherwise `y`. -/
def jsOr (x : Option Json) (y : Json) : Json :=
  match x with
  | some v => if v.truthy then v else y
  | none => y

mutual

/-- JavaScript `String(v)` / `v.toString()` on a JSON value (arrays join their
elements with commas; objects print as `[object Object]`). -/
def jsToString : Json → String
  | .null => "null"
  | .bool b => if b then "true" else "false"
  | .num n => toString n
  | .str s => s
  | .arr xs => jsToStringList xs
  | .obj _ => "[object Object]"

/-- Comma-joined rendering of a list of JSON values (array `toString`). -/
def jsToStringList : List Json → String
  | [] => ""
  | [x] => jsToString x
  | x :: xs => jsToString x ++ "," ++ jsToStringList xs

end

/-- `String.prototype.trim` (whitespace restricted to the ASCII whitespace
characters, which covers the inputs at issue). -/
def jsTrim (s : String) : String :=
  String.mk (((s.data.dropWhile Char.isWhitespace).reverse.dropWhile
    Char.isWhitespace).reverse)

/-- Split a character list on a separator character (`String.prototype.split`
with a one-character separator). -/
def splitOnChar (c : Char) : List Char → List (List Char)
  | [] => [[]]
  | x :: xs =>
    let r := splitOnChar c xs
    if x == c then [] :: r
    else
      match r with
      | [] => [[x]]
      | y :: ys => (x :: y) :: ys

/-- Decimal value of a non-empty all-digit character list (`none` otherwise). -/
def digitsToNat? (l : List Char) : Option Nat :=
  match l with
  | [] => none
  | _ =>
    l.foldl
      (fun acc c =>
        match acc with
        | none => none
        | some n => if c.isDigit then some (n * 10 + (c.toNat - 48)) else none)
      (some 0)

/-- `String.prototype.toLowerCase` (ASCII). -/
def jsToLower (s : String) : String :=
  String.mk (s.data.map Char.toLower)

/-- JavaScript `Number(v)` on a JSON value, restricted to integer results;
`none` models `NaN`.  (`Number` of a string is its decimal value after
trimming, with the empty string giving `0`; a number is itself; `null` is `0`;
booleans are `0`/`1`; non-primitive values give `NaN` in the cases the
handlers meet.) -/
def jsNumberOf : Json → Option Int
  | .num n => some n
  | .null => some 0
  | .bool b => some (if b then 1 else 0)
  | .str s =>
      match (jsTrim s).data with
      | [] => some 0
      | '-' :: rest => (digitsToNat? rest).map (fun n => -(n : Int))
      | t => (digitsToNat? t).map Int.ofNat
  | .arr _ => none
  | .obj _ => none

/-- Substring containment, modelling JavaScript `String.prototype.includes`. -/
def strContains (s sub : String) : Bool :=
  decide (sub.data <:+: s.data)

/-! ## Upstream gateway (`callSeal`) -/

/-- The data of a settled `fetch` response, as observed by `callSeal`:
the HTTP status, the `content-type` header (`none` when absent), the result of
`resp.json()` (`none` models a JSON parse failure, i.e. a rejected promise)
and the result of `resp.text()` (`none` models a rejected promise). -/
structure FetchResp where
  status : Nat
  contentType : Option String
  jsonResult : Option Json
  textResult : Option String
deriving Repr

/-- The triple returned by `callSeal`. -/
structure SealResult where
  ok : Bool
  status : Nat
  body : Json
deriving Repr

/-- `callSeal`, given a settled response: classifies the body by content type
(`resp.ok` is true exactly for statuses 200–299). -/
def callSeal (r : FetchResp) : SealResult :=
  let ct := r.contentType.getD ""
  let body :=
    if strContains ct "application/json" then
      r.jsonResult.getD (Json.obj [])
    else
      Json.obj [("non_json", Json.str (r.textResult.getD ""))]
  { ok := 200 ≤ r.status && r.status ≤ 299, status := r.status, body := body }

/-- `callSeal` including the transport layer: a transport-level failure of
`fetch` (modelled by `.error`) propagates as a thrown exception; a settled
response never throws, whatever its status. -/
def callSealT (t : Except String FetchResp) : Except String SealResult :=
  t.map callSeal

/-! ## HTTP surface model -/

/-- An HTTP response produced by the bridge. -/
structure Response where
  status : Nat
  body : Json
deriving Repr

/-- An outbound call issued to the Seal API (path with query string, HTTP
method, and the JSON request body if any). -/
structure UpstreamCall where
  path : String
  method : String
  body : Option Json
deriving Repr

/-- A handler outcome: the response sent, and the upstream calls issued. -/
abbrev Outcome := Response × List UpstreamCall

/-! ## Authentication guard (`checkAuth`) -/

/-- `checkAuth`: the inbound `Authorization` header (`none` when absent) must
be exactly `Bearer <secret>`. -/
def checkAuth (authorization : Option String) (secret : String) : Bool :=
  authorization == some ("Bearer " ++ secret)

/-- A route guarded by `checkAuth`: on mismatch the response is
`401 {error:"Unauthorized"}` and the handler is never run (no upstream call
is issued). -/
def runGuarded (authorization : Option String) (secret : String)
    (handler : Unit → Outcome) : Outcome :=
  if checkAuth authorization secret then handler ()
  else ({ status := 401, body := Json.obj [("error", Json.str "Unauthorized")] }, [])

/-! ## Shared handler helpers -/

/-- The fixed upstream base URL. -/
def SEAL_BASE : String := "https://app.sealsubscriptions.com/shopify/merchant/api"

/-- Truthiness of a possibly-`undefined` value (`undefined` is falsy). -/
def jsTruthyOpt (x : Option Json) : Bool :=
  (x.map Json.truthy).getD false

/-- Falsiness of a JavaScript number modelled as `Option Int`:
`NaN` (`none`) and `0` are the falsy numbers. -/
def jsNumFalsy : Option Int → Bool
  | none => true
  | some n => n == 0

/-- `Number` applied to a possibly-`undefined` value (`Number(undefined)` is
`NaN`). -/
def jsNumberOfOpt (x : Option Json) : Option Int :=
  x.bind jsNumberOf

/-- A 200 response with the given JSON body. -/
def resp200 (b : Json) : Response := { status := 200, body := b }

/-- A 400 response with body `{error: <msg>}`. -/
def resp400 (msg : String) : Response :=
  { status := 400, body := Json.obj [("error", Json.str msg)] }

/-- `{error: {<fields>}}`. -/
def errBody (fields : List (String × Json)) : Json :=
  Json.obj [("error", Json.obj fields)]

/-- The `bridge_exception` error object (for handlers whose error body is the
bare `{error: {...}}`). -/
def bridgeExcBody (m : String) : Json :=
  errBody [("reason", Json.str "bridge_exception"), ("message", Json.str m)]

/-- The plain `upstream_error` error object. -/
def upstreamErrBody (status : Nat) (body : Json) : Json :=
  errBody [("reason", Json.str "upstream_error"), ("status", Json.num (status : Int)),
           ("body", body)]

/-! ## `encodeURIComponent` -/

/-- Upper-case hexadecimal digit. -/
def hexDigit (n : Nat) : Char :=
  if n < 10 then Char.ofNat (48 + n) else Char.ofNat (55 + n)

/-- The characters `encodeURIComponent` leaves unescaped
(`A–Z a–z 0–9 - _ . ! ~ * ' ( )`). -/
def isUnreservedURIChar (c : Char) : Bool :=
  c.isAlphanum || c == '-' || c == '_' || c == '.' || c == '!' || c == '~' ||
    c == '*' || c == Char.ofNat 39 || c == '(' || c == ')'

/-- UTF-8 code units of a character. -/
def utf8Bytes (c : Char) : List Nat :=
  let n := c.toNat
  if n < 128 then [n]
  else if n < 2048 then [192 + n / 64, 128 + n % 64]
  else if n < 65536 then [224 + n / 4096, 128 + (n / 64) % 64, 128 + n % 64]
  else [240 + n / 262144, 128 + (n / 4096) % 64, 128 + (n / 64) % 64, 128 + n % 64]

/-- Percent-encoding of one character (one `%HH` triple per UTF-8 byte). -/
def pctEncodeChar (c : Char) : String :=
  ((utf8Bytes c).map
    (fun b => String.mk [Char.ofNat 37, hexDigit (b / 16), hexDigit (b % 16)])).foldl
      (· ++ ·) ""

/-- JavaScript `encodeURIComponent`. -/
def encodeURIComponent (s : String) : String :=
  (s.data.map
    (fun c => if isUnreservedURIChar c then String.mk [c] else pctEncodeChar c)).foldl
      (· ++ ·) ""

/-! ## List-subscriptions handler -/

/-- V1 (`server.js`) envelope probe: `payload.subscriptions`, then
`subscriptions`, then `payload` — the first of the three that is an array;
default empty. -/
def extractListV1 (body : Json) : List Json :=
  match jsIsArr (jsGet (jsGet (some body) "payload") "subscriptions") with
  | some xs => xs
  | none =>
    match jsIsArr (jsGet (some body) "subscriptions") with
    | some xs => xs
    | none =>
      match jsIsArr (jsGet (some body) "payload") with
      | some xs => xs
      | none => []

/-- V2 (`part_000`) envelope probe: `payload`, then `subscriptions`, then
`payload.subscriptions` — the first of the three that is an array; default
empty. -/
def extractListV2 (body : Json) : List Json :=
  match jsIsArr (jsGet (some body) "payload") with
  | some xs => xs
  | none =>
    match jsIsArr (jsGet (some body) "subscriptions") with
    | some xs => xs
    | none =>
      match jsIsArr (jsGet (jsGet (some body) "payload") "subscriptions") with
      | some xs => xs
      | none => []

/-- A field of a JSON object under construction: omitted when the value is
`undefined` (`JSON.stringify` drops `undefined`-valued properties). -/
def jsField (k : String) (v : Option Json) : List (String × Json) :=
  match v with
  | some x => [(k, x)]
  | none => []

/-- Elements of a possibly-`undefined` value that is used as an array
(`(x || []).map`): the elements when it is an array, else the empty list. -/
def jsArrElems (x : Option Json) : List Json :=
  (jsIsArr x).getD []

/-- Item normalization: `i => ({title: i.title, qty: i.quantity, id: i.id})`. -/
def normalizeItem (i : Json) : Json :=
  Json.obj (jsField "title" (i.get "title") ++ jsField "qty" (i.get "quantity") ++
            jsField "id" (i.get "id"))

/-- Subscription normalization (the `list.map(s => ...)` body, identical in
both variants). -/
def normalizeSub (s : Json) : Json :=
  Json.obj (jsField "id" (s.get "id") ++ jsField "status" (s.get "status") ++
    [("next_charge_at",
      jsOr (s.get "next_billing")
        (jsOr (s.get "next_order_datetime") (jsOr (s.get "next_charge_at") Json.null)))] ++
    [("items", Json.arr ((jsArrElems (s.get "items")).map normalizeItem))] ++
    [("discounts", jsOr (s.get "discount_codes") (Json.arr []))])

/-- `{subscriptions: [], error: {<fields>}}`. -/
def emptySubsErr (fields : List (String × Json)) : Json :=
  Json.obj [("subscriptions", Json.arr []), ("error", Json.obj fields)]

/-- The `GET /api/subscriptions` handler (shared body of both variants,
parameterized by the envelope probe `extract`).  `email` is
`req.query.email` (`none` when absent); `upstream` is the settled result of
`await callSeal(...)`, with `.error` modelling a thrown transport failure. -/
def listSubscriptionsWith (extract : Json → List Json) (email : Option Json)
    (upstream : Except String SealResult) : Outcome :=
  let rawEmail := jsTrim (jsToString (jsOr email (Json.str "")))
  if rawEmail = "" then
    (resp200 (emptySubsErr [("reason", Json.str "missing_email")]), [])
  else
    let call : UpstreamCall :=
      { path := "/subscriptions?query=" ++ encodeURIComponent rawEmail ++ "&with-items=true",
        method := "GET", body := none }
    match upstream with
    | .error e =>
        (resp200 (emptySubsErr
          [("reason", Json.str "bridge_exception"), ("message", Json.str e)]), [call])
    | .ok r =>
        if !r.ok then
          (resp200 (emptySubsErr
            [("reason", Json.str "upstream_error"), ("status", Json.num (r.status : Int)),
             ("body", r.body)]), [call])
        else
          (resp200 (Json.obj
            [("subscriptions", Json.arr ((extract r.body).map normalizeSub))]), [call])

/-- V1 (`server.js`) `GET /api/subscriptions` handler. -/
def listSubscriptionsV1 (email : Option Json) (upstream : Except String SealResult) :
    Outcome :=
  listSubscriptionsWith extractListV1 email upstream

/-- V2 (`part_000`) `GET /api/subscriptions` handler. -/
def listSubscriptionsV2 (email : Option Json) (upstream : Except String SealResult) :
    Outcome :=
  listSubscriptionsWith extractListV2 email upstream

/-! ## Status-change handler -/

/-- V1 (`server.js`) `PUT /api/subscription/:id` handler.  `idNum` is
`Number(req.params.id)` (`none` = `NaN`); `body` is `req.body`. -/
def statusChangeV1 (idNum : Option Int) (body : Option Json)
    (upstream : Except String SealResult) : Outcome :=
  let action := jsToLower (jsToString (jsOr (jsGet body "action") (Json.str "")))
  match idNum with
  | none => (resp400 "Missing id or action", [])
  | some id =>
    if id == 0 || action == "" then (resp400 "Missing id or action", [])
    else if !(["pause", "resume", "cancel", "reactivate"].contains action) then
      (resp400 "Invalid action. Must be: pause, resume, cancel, or reactivate", [])
    else
      let payload := Json.obj [("id", Json.num id), ("action", Json.str action)]
      let call : UpstreamCall :=
        { path := "/subscription", method := "PUT", body := some payload }
      match upstream with
      | .error e => (resp200 (bridgeExcBody e), [call])
      | .ok r =>
          if !r.ok then
            (resp200 (errBody
              [("reason", Json.str "upstream_error"), ("status", Json.num (r.status : Int)),
               ("body", r.body),
               ("attempted_endpoint", Json.str (SEAL_BASE ++ "/subscription")),
               ("request_payload", payload)]), [call])
          else (resp200 r.body, [call])

/-- V2 (`part_000`) `PUT /api/subscription/:id` handler (no lower-casing and
no allowed-action check; any non-empty action is forwarded). -/
def statusChangeV2 (idNum : Option Int) (body : Option Json)
    (upstream : Except String SealResult) : Outcome :=
  let action := jsToString (jsOr (jsGet body "action") (Json.str ""))
  match idNum with
  | none => (resp400 "Missing id or action", [])
  | some id =>
    if id == 0 || action == "" then (resp400 "Missing id or action", [])
    else
      let call : UpstreamCall :=
        { path := "/subscriptions/" ++ toString id, method := "PUT",
          body := some (Json.obj [("action", Json.str action)]) }
      match upstream with
      | .error e => (resp200 (bridgeExcBody e), [call])
      | .ok r =>
          if !r.ok then (resp200 (upstreamErrBody r.status r.body), [call])
          else (resp200 r.body, [call])

/-! ## Charge-now handler (V2 only) -/

/-- V2 (`part_000`) `PUT /api/subscription/:id/charge-now` handler.  The
`reset_schedule` body field is read but both branches of the conditional
produce the string `"true"` (the source's documented quirk). -/
def chargeNowV2 (idNum : Option Int) (body : Option Json)
    (upstream : Except String SealResult) : Outcome :=
  match idNum with
  | none => (resp400 "Missing id", [])
  | some id =>
    if id == 0 then (resp400 "Missing id", [])
    else
      let reset := if jsTruthyOpt (jsGet body "reset_schedule") then "true" else "true"
      let call : UpstreamCall :=
        { path := "/subscriptions/" ++ toString id ++ "/charge_now", method := "PUT",
          body := some (Json.obj [("reset_schedule", Json.str reset)]) }
      match upstream with
      | .error e => (resp200 (bridgeExcBody e), [call])
      | .ok r =>
          if !r.ok then (resp200 (upstreamErrBody r.status r.body), [call])
          else (resp200 r.body, [call])

/-! ## Reschedule handler -/

instance : Inhabited Json := ⟨Json.null⟩

/-- Days since 1970-01-01 of a Gregorian calendar date (the standard
days-from-civil computation). -/
def daysFromCivil (y m d : Int) : Int :=
  let yy := if m ≤ 2 then y - 1 else y
  let era := (if 0 ≤ yy then yy else yy - 399) / 400
  let yoe := yy - era * 400
  let mp := (m + 9) % 12
  let doy := (153 * mp + 2) / 5 + d - 1
  let doe := yoe * 365 + yoe / 4 - yoe / 100 + doy
  era * 146097 + doe - 719468

/-- Parse the date part `"YYYY-MM-DD"` to days since the epoch. -/
def parseYmd (s : String) : Option Int :=
  match (splitOnChar '-' s.data).map digitsToNat? with
  | [some y, some m, some d] =>
      if 1 ≤ m ∧ m ≤ 12 ∧ 1 ≤ d ∧ d ≤ 31 then
        some (daysFromCivil (y : Int) (m : Int) (d : Int))
      else none
  | _ => none

/-- Parse the time part `"HH:mm"` or `"HH:mm:ss"` to milliseconds. -/
def parseHms (s : String) : Option Int :=
  match (splitOnChar (Char.ofNat 58) s.data).map digitsToNat? with
  | [some h, some mi] =>
      if h ≤ 23 ∧ mi ≤ 59 then some (((h * 60 + mi : Nat) : Int) * 60000) else none
  | [some h, some mi, some sec] =>
      if h ≤ 23 ∧ mi ≤ 59 ∧ sec ≤ 59 then
        some ((((h * 60 + mi) * 60 + sec : Nat) : Int) * 1000)
      else none
  | _ => none

/-- `new Date(string)` for ISO-style strings, in milliseconds since the epoch
(interpreted in UTC; the engine's local zone applies a fixed offset that does
not change the orderings at issue). -/
def parseIsoDate (s : String) : Option Int :=
  match (splitOnChar 'T' s.data).map String.mk with
  | [d] => (parseYmd d).map (fun days => days * 86400000)
  | [d, t] =>
      match parseYmd d, parseHms t with
      | some days, some ms => some (days * 86400000 + ms)
      | _, _ => none
  | _ => none

/-- `new Date(v)` as used in the sort comparator: a number is a millisecond
timestamp; a string is parsed as an ISO date (an unparseable string, which in
JS yields an invalid date whose comparator value is `NaN`, is modelled as 0);
other values are modelled as 0. -/
def dateValue : Json → Int
  | .num n => n
  | .str s => (parseIsoDate s).getD 0
  | _ => 0

/-- The sort key of a billing attempt:
`new Date(a.date_time || a.datetime || a.scheduled_at || 0)`. -/
def attemptKey (a : Json) : Int :=
  dateValue (jsOr (a.get "date_time")
    (jsOr (a.get "datetime") (jsOr (a.get "scheduled_at") (Json.num 0))))

/-- Attempts-envelope probe (identical in both variants): `payload` then
`attempts`, default empty. -/
def extractAttempts (body : Json) : List Json :=
  match jsIsArr (jsGet (some body) "payload") with
  | some xs => xs
  | none =>
    match jsIsArr (jsGet (some body) "attempts") with
    | some xs => xs
    | none => []

/-- `(x || "").trim()`: trims when the value (or its `""` default) is a
string; a truthy non-string value has no `trim` method, so the expression
throws a `TypeError` (the `.error` case, caught by the handler's
`try/catch`). -/
def jsTrimStr (x : Option Json) : Except String String :=
  match jsOr x (Json.str "") with
  | .str s => .ok (jsTrim s)
  | _ => .error "trim is not a function"

/-- The selected attempt when the fetched list is non-empty: sort ascending
by `attemptKey` and take the first element.  (JavaScript
`Array.prototype.sort` is stable, so it is modelled by the stable
`List.insertionSort` with the comparator's `≤` relation.) -/
def selectAttempt (arr : List Json) : Json :=
  (List.insertionSort (fun a b => attemptKey a ≤ attemptKey b) arr).headI

/-- Reschedule tail (steps 4–6 of the algorithm): with the resolved attempt
id, either report `no_billing_attempt_found` or issue the
`PUT /subscription-billing-attempt` call and translate its result.
`calls` are the upstream calls already issued. -/
def finishReschedule (resetVal : Json) (sid : Int) (date time timezone : String)
    (attemptId : Option Int) (calls : List UpstreamCall)
    (rescheduleUpstream : Except String SealResult) : Outcome :=
  match attemptId with
  | none =>
      (resp200 (errBody [("reason", Json.str "no_billing_attempt_found"),
        ("message",
         Json.str "Could not find an upcoming billing attempt for this subscription.")]),
       calls)
  | some aid =>
    if aid == 0 then
      (resp200 (errBody [("reason", Json.str "no_billing_attempt_found"),
        ("message",
         Json.str "Could not find an upcoming billing attempt for this subscription.")]),
       calls)
    else
      let payload := Json.obj [("id", Json.num aid), ("subscription_id", Json.num sid),
        ("action", Json.str "reschedule"), ("date", Json.str date),
        ("time", Json.str time), ("timezone", Json.str timezone),
        ("reset_schedule", resetVal)]
      let call2 : UpstreamCall :=
        { path := "/subscription-billing-attempt", method := "PUT", body := some payload }
      match rescheduleUpstream with
      | .error m => (resp200 (bridgeExcBody m), calls ++ [call2])
      | .ok r =>
          if !r.ok then (resp200 (upstreamErrBody r.status r.body), calls ++ [call2])
          else
            (resp200 (Json.obj [("ok", Json.bool true),
              ("billing_attempt_id", Json.num aid), ("result", r.body)]),
             calls ++ [call2])

/-- The `PUT /api/subscription/:id/reschedule` handler, shared by both
variants up to the computation of the forwarded `reset_schedule` value
(`resetVal`).  `subIdNum` is `Number(req.params.id)`; `attemptsUpstream` and
`rescheduleUpstream` are the settled results of the two possible `callSeal`
invocations, in order. -/
def rescheduleWith (resetVal : Option Json → Json) (subIdNum : Option Int)
    (body : Option Json)
    (attemptsUpstream rescheduleUpstream : Except String SealResult) : Outcome :=
  match subIdNum with
  | none => (resp400 "Missing subscription id", [])
  | some sid =>
  if sid == 0 then (resp400 "Missing subscription id", [])
  else
    match jsTrimStr (jsGet body "date") with
    | .error m => (resp200 (bridgeExcBody m), [])
    | .ok date =>
    match jsTrimStr (jsGet body "time") with
    | .error m => (resp200 (bridgeExcBody m), [])
    | .ok time =>
    match jsTrimStr (jsGet body "timezone") with
    | .error m => (resp200 (bridgeExcBody m), [])
    | .ok timezone =>
    let reset := resetVal body
    let attemptId0 : Option Int :=
      if jsTruthyOpt (jsGet body "attempt_id") then jsNumberOfOpt (jsGet body "attempt_id")
      else some 0
    if date == "" || time == "" || timezone == "" then
      (resp400 "Missing date/time/timezone", [])
    else
      if jsNumFalsy attemptId0 then
        let call1 : UpstreamCall :=
          { path := "/subscription-billing-attempts?subscription_id=" ++ toString sid,
            method := "GET", body := none }
        match attemptsUpstream with
        | .error m => (resp200 (bridgeExcBody m), [call1])
        | .ok r =>
            if !r.ok then (resp200 (upstreamErrBody r.status r.body), [call1])
            else
              let arr := extractAttempts r.body
              let attemptId1 : Option Int :=
                if arr.length > 0 then jsNumberOfOpt ((selectAttempt arr).get "id")
                else attemptId0
              finishReschedule reset sid date time timezone attemptId1 [call1]
                rescheduleUpstream
      else
        finishReschedule reset sid date time timezone attemptId0 [] rescheduleUpstream

/-- V1 (`server.js`) forwarded `reset_schedule` value:
`req.body?.reset_schedule !== false` — the boolean `false` exactly when the
caller supplied the boolean `false`, `true` otherwise (including when the
field is absent). -/
def resetScheduleV1 (body : Option Json) : Json :=
  Json.bool (match jsGet body "reset_schedule" with
    | some (.bool false) => false
    | _ => true)

/-- V2 (`part_000`) forwarded `reset_schedule` value:
`req.body?.reset_schedule ? "true" : "true"` — the string `"true"` on both
branches. -/
def resetScheduleV2 (body : Option Json) : Json :=
  if jsTruthyOpt (jsGet body "reset_schedule") then Json.str "true" else Json.str "true"

/-- V1 (`server.js`) `PUT /api/subscription/:id/reschedule` handler. -/
def rescheduleV1 (subIdNum : Option Int) (body : Option Json)
    (attemptsUpstream rescheduleUpstream : Except String SealResult) : Outcome :=
  rescheduleWith resetScheduleV1 subIdNum body attemptsUpstream rescheduleUpstream

/-- V2 (`part_000`) `PUT /api/subscription/:id/reschedule` handler. -/
def rescheduleV2 (subIdNum : Option Int) (body : Option Json)
    (attemptsUpstream rescheduleUpstream : Except String SealResult) : Outcome :=
  rescheduleWith resetScheduleV2 subIdNum body attemptsUpstream rescheduleUpstream

/-! ## Observers used in the statements -/

/-- The subscription array at the `payload` location, when that location holds
an array. -/
def payloadLoc (body : Json) : Option (List Json) :=
  jsIsArr (jsGet (some body) "payload")

/-- The subscription array at the `subscriptions` location, when that location
holds an array. -/
def subsLoc (body : Json) : Option (List Json) :=
  jsIsArr (jsGet (some body) "subscriptions")

/-- The subscription array at the `payload.subscriptions` location, when that
location holds an array. -/
def payloadSubsLoc (body : Json) : Option (List Json) :=
  jsIsArr (jsGet (jsGet (some body) "payload") "subscriptions")

/-- Exactly one of the three envelope locations holds the array `xs`, the
other two holding no array at all. -/
def exactlyOneLoc (body : Json) (xs : List Json) : Prop :=
  (payloadLoc body = some xs ∧ subsLoc body = none ∧ payloadSubsLoc body = none) ∨
  (payloadLoc body = none ∧ subsLoc body = some xs ∧ payloadSubsLoc body = none) ∨
  (payloadLoc body = none ∧ subsLoc body = none ∧ payloadSubsLoc body = some xs)

/-- The first array among a priority-ordered list of probed locations,
defaulting to empty. -/
def firstArr : List (Option (List Json)) → List Json
  | [] => []
  | some xs :: _ => xs
  | none :: rest => firstArr rest

/-- The `error.reason` field of a response body, when present. -/
def respReason (resp : Response) : Option Json :=
  jsGet (jsGet (some resp.body) "error") "reason"

/-- The `error.reason` values the bridge itself produces: either no
bridge-generated error field at all, or one of the four documented reasons. -/
def allowedReason : Option Json → Prop
  | none => True
  | some v =>
      v = Json.str "upstream_error" ∨ v = Json.str "no_billing_attempt_found" ∨
      v = Json.str "bridge_exception" ∨ v = Json.str "missing_email"

/-- The body carried by a settled upstream result (`Json.null` for a
transport failure, which produces no body). -/
def upstreamBody : Except String SealResult → Json
  | .ok r => r.body
  | .error _ => Json.null

/-! ## Concrete fixtures for the reschedule example -/

/-- The billing attempts of the spec's reschedule example: ids 1, 2, 3 with
timestamps 2025-11-12T00:00, 2025-11-10T09:30 and 2025-11-15T00:00. -/
def attemptsExample : List Json :=
  [Json.obj [("id", Json.num 1), ("date_time", Json.str "2025-11-12T00:00")],
   Json.obj [("id", Json.num 2), ("date_time", Json.str "2025-11-10T09:30")],
   Json.obj [("id", Json.num 3), ("date_time", Json.str "2025-11-15T00:00")]]

/-- A successful attempts-fetch response carrying `attemptsExample` under
`payload`. -/
def attemptsRespExample : SealResult :=
  { ok := true, status := 200, body := Json.obj [("payload", Json.arr attemptsExample)] }

/-- A reschedule request body with no `attempt_id`. -/
def rescheduleBodyExample : Json :=
  Json.obj [("date", Json.str "2025-12-01"), ("time", Json.str "09:00"),
            ("timezone", Json.str "America/Chicago")]

/-- A successful attempts-fetch response whose `payload` array is empty. -/
def emptyAttemptsResp : SealResult :=
  { ok := true, status := 200, body := Json.obj [("payload", Json.arr [])] }

/-! ## Theorems -/

/-- A string all of whose characters are whitespace trims to the empty
string. -/
theorem jsTrim_eq_empty_of_all_ws (s : String) (h : ∀ c ∈ s.data, c.isWhitespace) :
    jsTrim s = "" := by
  have h1 : s.data.dropWhile Char.isWhitespace = [] :=
    List.dropWhile_eq_nil_iff.mpr h
  simp [jsTrim, h1]

/-- C2: a request to an authenticated route whose `Authorization` header is
absent or differs in any way from the exact string `Bearer <secret>` receives
the 401 response with the generic `{error:"Unauthorized"}` body, and the
guarded handler never runs: the outcome is independent of the handler and no
upstream call is issued. -/
theorem auth_mismatch_short_circuits (authorization : Option String) (secret : String)
    (handler : Unit → Outcome)
    (h : authorization ≠ some ("Bearer " ++ secret)) :
    runGuarded authorization secret handler =
      ({ status := 401, body := Json.obj [("error", Json.str "Unauthorized")] }, []) := by
  simp [runGuarded, checkAuth, h]

/-- Witness for C2: a concrete mismatched bearer token is rejected even
though the handler would have called upstream. -/
theorem auth_mismatch_short_circuits_witness :
    (some "Bearer wrong" ≠ some ("Bearer " ++ "s3cret")) ∧
    runGuarded (some "Bearer wrong") "s3cret"
      (fun _ => ({ status := 200, body := Json.null },
        [{ path := "/subscriptions", method := "GET", body := none }])) =
      ({ status := 401, body := Json.obj [("error", Json.str "Unauthorized")] }, []) :=
  ⟨by decide, auth_mismatch_short_circuits _ _ _ (by decide)⟩

/-- C5: a list-subscriptions request whose `email` query parameter is
missing, the empty string, or whitespace-only gets, in both variants, the 200
response `{subscriptions: [], error: {reason: "missing_email"}}` (never a
400), and no upstream call is made. -/
theorem missing_email_soft_success (email : Option Json)
    (u1 u2 : Except String SealResult)
    (h : email = none ∨ ∃ s, email = some (Json.str s) ∧ ∀ c ∈ s.data, c.isWhitespace) :
    listSubscriptionsV1 email u1 =
      (resp200 (emptySubsErr [("reason", Json.str "missing_email")]), []) ∧
    listSubscriptionsV2 email u2 =
      (resp200 (emptySubsErr [("reason", Json.str "missing_email")]), []) := by
  have key : jsTrim (jsToString (jsOr email (Json.str ""))) = "" := by
    rcases h with rfl | ⟨s, rfl, hs⟩
    · rfl
    · by_cases hempty : s = ""
      · subst hempty; rfl
      · have ht : (Json.str s).truthy = true := by
          simp [Json.truthy, hempty]
        simp only [jsOr, ht, if_true, jsToString]
        exact jsTrim_eq_empty_of_all_ws s hs
  refine ⟨?_, ?_⟩ <;>
    simp [listSubscriptionsV1, listSubscriptionsV2, listSubscriptionsWith, key]

/-- Witness for C5: a whitespace-only email. -/
theorem missing_email_soft_success_witness :
    listSubscriptionsV1 (some (Json.str "   ")) (Except.error "boom") =
      (resp200 (emptySubsErr [("reason", Json.str "missing_email")]), []) ∧
    listSubscriptionsV2 (some (Json.str "   ")) (Except.error "boom") =
      (resp200 (emptySubsErr [("reason", Json.str "missing_email")]), []) :=
  missing_email_soft_success _ _ _ (Or.inr ⟨"   ", rfl, by decide⟩)

/-- C7: the charge-now operation rejects a falsy id with a 400 and no
upstream call, and for every valid id issues exactly one upstream call —
`PUT /subscriptions/:id/charge_now` with body `{reset_schedule: "true"}`
(the string) — whatever `reset_schedule` the caller sent. -/
theorem charge_now_forces_reset_true (idNum : Option Int) (body : Option Json)
    (upstream : Except String SealResult) :
    (jsNumFalsy idNum = true →
      chargeNowV2 idNum body upstream = (resp400 "Missing id", [])) ∧
    (∀ id, idNum = some id → id ≠ 0 →
      (chargeNowV2 idNum body upstream).2 =
        [{ path := "/subscriptions/" ++ toString id ++ "/charge_now", method := "PUT",
           body := some (Json.obj [("reset_schedule", Json.str "true")]) }]) := by
  constructor
  · intro hf
    match idNum, hf with
    | none, _ => rfl
    | some n, hf =>
      have h0 : n = 0 := by simpa [jsNumFalsy] using hf
      subst h0; rfl
  · rintro id rfl hid
    have h0 : (id == 0) = false := by simpa using hid
    cases upstream with
    | error e => simp [chargeNowV2, h0]
    | ok r => cases hok : r.ok <;> simp [chargeNowV2, h0, hok]

/-- Witness for C7: id 9 with caller-supplied `reset_schedule: false` still
sends the string `"true"`; a `NaN` id gets the 400. -/
theorem charge_now_forces_reset_true_witness :
    (chargeNowV2 (some 9) (some (Json.obj [("reset_schedule", Json.bool false)]))
      (Except.ok { ok := true, status := 200, body := Json.null })).2 =
      [{ path := "/subscriptions/" ++ toString (9 : Int) ++ "/charge_now", method := "PUT",
         body := some (Json.obj [("reset_schedule", Json.str "true")]) }] ∧
    chargeNowV2 none none (Except.error "x") = (resp400 "Missing id", []) :=
  ⟨(charge_now_forces_reset_true _ _ _).2 9 rfl (by decide),
   (charge_now_forces_reset_true _ _ _).1 rfl⟩

/-- C10: in every handler taking a path id (both status-change variants,
charge-now, both reschedule variants), an id whose `Number` conversion is
`NaN` (`none`) or `0` — the conversion of the literal path string `"0"` —
yields the 400 response with no upstream call. -/
theorem falsy_id_rejected (idNum : Option Int) (body : Option Json)
    (u1 u2 : Except String SealResult)
    (h : idNum = none ∨ idNum = some 0) :
    statusChangeV1 idNum body u1 = (resp400 "Missing id or action", []) ∧
    statusChangeV2 idNum body u1 = (resp400 "Missing id or action", []) ∧
    chargeNowV2 idNum body u1 = (resp400 "Missing id", []) ∧
    rescheduleV1 idNum body u1 u2 = (resp400 "Missing subscription id", []) ∧
    rescheduleV2 idNum body u1 u2 = (resp400 "Missing subscription id", []) := by
  rcases h with rfl | rfl <;> exact ⟨rfl, rfl, rfl, rfl, rfl⟩

/-- Witness for C10 at the id `0` (the conversion of the path string `"0"`,
which is numeric). -/
theorem falsy_id_rejected_witness :
    statusChangeV1 (some 0) none (Except.error "x") =
      (resp400 "Missing id or action", []) ∧
    statusChangeV2 (some 0) none (Except.error "x") =
      (resp400 "Missing id or action", []) ∧
    chargeNowV2 (some 0) none (Except.error "x") = (resp400 "Missing id", []) ∧
    rescheduleV1 (some 0) none (Except.error "x") (Except.error "y") =
      (resp400 "Missing subscription id", []) ∧
    rescheduleV2 (some 0) none (Except.error "x") (Except.error "y") =
      (resp400 "Missing subscription id", []) :=
  falsy_id_rejected (some 0) none (Except.error "x") (Except.error "y") (Or.inr rfl)

/-- C8: `callSeal`'s `ok` is true exactly for a 2xx upstream status; the
status is passed through; the body is the parsed JSON (empty object on parse
failure) when the content type contains `application/json` and otherwise
wraps the raw text under `non_json`; a settled response never throws — only
a transport-level failure propagates as an exception. -/
theorem callSeal_contract (r : FetchResp) (e : String) :
    ((callSeal r).ok = true ↔ 200 ≤ r.status ∧ r.status ≤ 299) ∧
    (callSeal r).status = r.status ∧
    (strContains (r.contentType.getD "") "application/json" = true →
      (callSeal r).body = r.jsonResult.getD (Json.obj [])) ∧
    (strContains (r.contentType.getD "") "application/json" = false →
      (callSeal r).body = Json.obj [("non_json", Json.str (r.textResult.getD ""))]) ∧
    callSealT (Except.ok r) = Except.ok (callSeal r) ∧
    callSealT (Except.error e) = Except.error e := by
  refine ⟨?_, rfl, ?_, ?_, rfl, rfl⟩
  · simp [callSeal]
  · intro h; simp [callSeal, h]
  · intro h; simp [callSeal, h]

/-- Witness for C8: a 404 JSON response parses, is not `ok`, and does not
throw; a non-JSON response is wrapped under `non_json`. -/
theorem callSeal_contract_witness :
    (callSeal { status := 404, contentType := some "application/json; charset=utf-8",
                jsonResult := some (Json.str "x"), textResult := some "t" }).body =
      Json.str "x" ∧
    ((callSeal { status := 404, contentType := some "application/json; charset=utf-8",
                 jsonResult := some (Json.str "x"), textResult := some "t" }).ok = true ↔
      200 ≤ 404 ∧ 404 ≤ 299) ∧
    (callSeal { status := 200, contentType := some "text/html",
                jsonResult := none, textResult := some "hello" }).body =
      Json.obj [("non_json", Json.str "hello")] :=
  ⟨(callSeal_contract _ "e").2.2.1 (by decide),
   (callSeal_contract _ "e").1,
   (callSeal_contract _ "e").2.2.2.1 (by decide)⟩

/-- Counterexample to C1: on a body in which both `payload` and
`subscriptions` hold arrays, V1 (`server.js`) selects the `subscriptions`
array, not the `payload` array — `payload` does not take priority in that
variant. -/
theorem envelope_payload_priority_cex :
    payloadLoc (Json.obj [("payload", Json.arr [Json.num 1]),
      ("subscriptions", Json.arr [Json.num 2])]) = some [Json.num 1] ∧
    subsLoc (Json.obj [("payload", Json.arr [Json.num 1]),
      ("subscriptions", Json.arr [Json.num 2])]) = some [Json.num 2] ∧
    extractListV1 (Json.obj [("payload", Json.arr [Json.num 1]),
      ("subscriptions", Json.arr [Json.num 2])]) = [Json.num 2] ∧
    [Json.num 2] ≠ [Json.num 1] := by
  refine ⟨rfl, rfl, rfl, ?_⟩
  simp

/-- C1 (amended): when exactly one of the three envelope locations holds an
array, both variants extract that same array; when several hold arrays
simultaneously, each variant takes the first per its own probe order — V1
probes `payload.subscriptions`, then `subscriptions`, then `payload`, while
V2 probes `payload`, then `subscriptions`, then `payload.subscriptions` (so
`payload` wins only in V2). -/
theorem envelope_probe_amended (body : Json) (xs : List Json) :
    (exactlyOneLoc body xs → extractListV1 body = xs ∧ extractListV2 body = xs) ∧
    extractListV1 body = firstArr [payloadSubsLoc body, subsLoc body, payloadLoc body] ∧
    extractListV2 body = firstArr [payloadLoc body, subsLoc body, payloadSubsLoc body] := by
  have e1 : extractListV1 body =
      firstArr [payloadSubsLoc body, subsLoc body, payloadLoc body] := by
    unfold extractListV1 payloadSubsLoc subsLoc payloadLoc
    cases hc : jsIsArr (jsGet (jsGet (some body) "payload") "subscriptions") with
    | some xs1 => simp [hc, firstArr]
    | none =>
      cases hb : jsIsArr (jsGet (some body) "subscriptions") with
      | some xs2 => simp [hc, hb, firstArr]
      | none =>
        cases ha : jsIsArr (jsGet (some body) "payload") with
        | some xs3 => simp [hc, hb, ha, firstArr]
        | none => simp [hc, hb, ha, firstArr]
  have e2 : extractListV2 body =
      firstArr [payloadLoc body, subsLoc body, payloadSubsLoc body] := by
    unfold extractListV2 payloadSubsLoc subsLoc payloadLoc
    cases ha : jsIsArr (jsGet (some body) "payload") with
    | some xs1 => simp [ha, firstArr]
    | none =>
      cases hb : jsIsArr (jsGet (some body) "subscriptions") with
      | some xs2 => simp [ha, hb, firstArr]
      | none =>
        cases hc : jsIsArr (jsGet (jsGet (some body) "payload") "subscriptions") with
        | some xs3 => simp [ha, hb, hc, firstArr]
        | none => simp [ha, hb, hc, firstArr]
  refine ⟨?_, e1, e2⟩
  rintro (⟨h1, h2, h3⟩ | ⟨h1, h2, h3⟩ | ⟨h1, h2, h3⟩) <;>
    rw [e1, e2, h1, h2, h3] <;> exact ⟨rfl, rfl⟩

/-- Witness for C1 (amended): a body whose only array is at `payload` is
extracted identically by both variants. -/
theorem envelope_probe_amended_witness :
    exactlyOneLoc (Json.obj [("payload", Json.arr [Json.num 7])]) [Json.num 7] ∧
    extractListV1 (Json.obj [("payload", Json.arr [Json.num 7])]) = [Json.num 7] ∧
    extractListV2 (Json.obj [("payload", Json.arr [Json.num 7])]) = [Json.num 7] :=
  ⟨Or.inl ⟨rfl, rfl, rfl⟩,
   ((envelope_probe_amended (Json.obj [("payload", Json.arr [Json.num 7])])
      [Json.num 7]).1 (Or.inl ⟨rfl, rfl, rfl⟩)).1,
   ((envelope_probe_amended (Json.obj [("payload", Json.arr [Json.num 7])])
      [Json.num 7]).1 (Or.inl ⟨rfl, rfl, rfl⟩)).2⟩

/-- Counterexample to C3: V2's status-change handler forwards the invalid
action `"explode"` upstream and answers 200, instead of the 400 the claim
requires for the operation. -/
theorem status_action_validation_cex :
    (statusChangeV2 (some 5) (some (Json.obj [("action", Json.str "explode")]))
        (Except.ok { ok := true, status := 200, body := Json.null })).1.status = 200 ∧
    (statusChangeV2 (some 5) (some (Json.obj [("action", Json.str "explode")]))
        (Except.ok { ok := true, status := 200, body := Json.null })).2 =
      [{ path := "/subscriptions/5", method := "PUT",
         body := some (Json.obj [("action", Json.str "explode")]) }] :=
  ⟨rfl, rfl⟩

/-- C3 (amended): V1 lower-cases the `action` and answers 400 for any action
outside `{pause, resume, cancel, reactivate}` (so matching is
case-insensitive), forwarding the lower-cased action otherwise; V2 performs
no action-set validation and no lower-casing — every action with a non-empty
string form is forwarded unchanged. -/
theorem status_action_validation_amended (id : Int) (hid : id ≠ 0)
    (body : Option Json) (u : Except String SealResult) :
    (jsToLower (jsToString (jsOr (jsGet body "action") (Json.str ""))) ≠ "" →
      (["pause", "resume", "cancel", "reactivate"].contains
          (jsToLower (jsToString (jsOr (jsGet body "action") (Json.str "")))) = false →
        statusChangeV1 (some id) body u =
          (resp400 "Invalid action. Must be: pause, resume, cancel, or reactivate", []))) ∧
    (["pause", "resume", "cancel", "reactivate"].contains
        (jsToLower (jsToString (jsOr (jsGet body "action") (Json.str "")))) = true →
      (statusChangeV1 (some id) body u).2 =
        [{ path := "/subscription", method := "PUT",
           body := some (Json.obj [("id", Json.num id),
             ("action", Json.str
               (jsToLower (jsToString (jsOr (jsGet body "action") (Json.str "")))))]) }]) ∧
    (jsToString (jsOr (jsGet body "action") (Json.str "")) ≠ "" →
      (statusChangeV2 (some id) body u).2 =
        [{ path := "/subscriptions/" ++ toString id, method := "PUT",
           body := some (Json.obj [("action",
             Json.str (jsToString (jsOr (jsGet body "action") (Json.str ""))))]) }]) := by
  have h0 : (id == 0) = false := by simpa using hid
  refine ⟨?_, ?_, ?_⟩
  · intro hne hcon
    have hne' : (jsToLower (jsToString (jsOr (jsGet body "action") (Json.str ""))) == "")
        = false := by simpa using hne
    simp only [statusChangeV1, h0, hne', hcon]
    simp
  · intro hcon
    have hne : jsToLower (jsToString (jsOr (jsGet body "action") (Json.str ""))) ≠ "" := by
      intro h
      rw [h] at hcon
      exact absurd hcon (by decide)
    have hne' : (jsToLower (jsToString (jsOr (jsGet body "action") (Json.str ""))) == "")
        = false := by simpa using hne
    cases u with
    | error e =>
        simp only [statusChangeV1, h0, hne', hcon]
        simp
    | ok r =>
        cases hok : r.ok <;> simp only [statusChangeV1, h0, hne', hcon, hok] <;> simp
  · intro hne
    have hne' : (jsToString (jsOr (jsGet body "action") (Json.str "")) == "") = false := by
      simpa using hne
    cases u with
    | error e => simp [statusChangeV2, h0, hne']
    | ok r => cases hok : r.ok <;> simp [statusChangeV2, h0, hne', hok]

/-- Witness for C3 (amended): V1 lower-cases `"CancEL"` to `"cancel"` and
forwards it; V1 rejects `"explode"` with 400; V2 forwards `"explode"`. -/
theorem status_action_validation_amended_witness :
    (statusChangeV1 (some 5) (some (Json.obj [("action", Json.str "CancEL")]))
        (Except.ok { ok := true, status := 200, body := Json.null })).2 =
      [{ path := "/subscription", method := "PUT",
         body := some (Json.obj [("id", Json.num 5), ("action", Json.str "cancel")]) }] ∧
    statusChangeV1 (some 5) (some (Json.obj [("action", Json.str "explode")]))
        (Except.ok { ok := true, status := 200, body := Json.null }) =
      (resp400 "Invalid action. Must be: pause, resume, cancel, or reactivate", []) ∧
    (statusChangeV2 (some 5) (some (Json.obj [("action", Json.str "explode")]))
        (Except.ok { ok := true, status := 200, body := Json.null })).2 =
      [{ path := "/subscriptions/" ++ toString (5 : Int), method := "PUT",
         body := some (Json.obj [("action", Json.str "explode")]) }] :=
  ⟨(status_action_validation_amended 5 (by decide) _ _).2.1 (by decide),
   (status_action_validation_amended 5 (by decide) _ _).1 (by decide) (by decide),
   (status_action_validation_amended 5 (by decide) _ _).2.2 (by decide)⟩

/-- Counterexample to C9: in V2's reschedule, a caller-supplied boolean
`reset_schedule: false` is forwarded as the string `"true"`, not as the
boolean `false`. -/
theorem reschedule_reset_forward_cex :
    (rescheduleV2 (some 5) (some (Json.obj [("date", Json.str "2025-12-01"),
        ("time", Json.str "09:00"), ("timezone", Json.str "America/Chicago"),
        ("reset_schedule", Json.bool false), ("attempt_id", Json.num 42)]))
      (Except.error "unused")
      (Except.ok { ok := true, status := 200, body := Json.null })).2 =
      [{ path := "/subscription-billing-attempt", method := "PUT",
         body := some (Json.obj [("id", Json.num 42), ("subscription_id", Json.num 5),
           ("action", Json.str "reschedule"), ("date", Json.str "2025-12-01"),
           ("time", Json.str "09:00"), ("timezone", Json.str "America/Chicago"),
           ("reset_schedule", Json.str "true")]) }] ∧
    Json.str "true" ≠ Json.bool false :=
  ⟨rfl, fun h => Json.noConfusion h⟩

/-- C9 (amended): for a valid reschedule request with a caller-supplied
attempt id, V1 forwards `reset_schedule` as the boolean
`req.body.reset_schedule !== false` — equal to a caller-supplied boolean, in
particular `false` when `false` is supplied, and `true` when the field is
absent — while V2 always forwards the string `"true"` regardless of the
caller's value. -/
theorem reschedule_reset_forward_amended (sid aid : Int) (hsid : sid ≠ 0)
    (haid : aid ≠ 0) (body : Option Json) (d t z : String)
    (hd : jsTrimStr (jsGet body "date") = .ok d) (hd' : d ≠ "")
    (ht : jsTrimStr (jsGet body "time") = .ok t) (ht' : t ≠ "")
    (hz : jsTrimStr (jsGet body "timezone") = .ok z) (hz' : z ≠ "")
    (ha : jsGet body "attempt_id" = some (Json.num aid))
    (u1 u2 : Except String SealResult) :
    (rescheduleV1 (some sid) body u1 u2).2 =
      [{ path := "/subscription-billing-attempt", method := "PUT",
         body := some (Json.obj [("id", Json.num aid), ("subscription_id", Json.num sid),
           ("action", Json.str "reschedule"), ("date", Json.str d), ("time", Json.str t),
           ("timezone", Json.str z), ("reset_schedule", resetScheduleV1 body)]) }] ∧
    (rescheduleV2 (some sid) body u1 u2).2 =
      [{ path := "/subscription-billing-attempt", method := "PUT",
         body := some (Json.obj [("id", Json.num aid), ("subscription_id", Json.num sid),
           ("action", Json.str "reschedule"), ("date", Json.str d), ("time", Json.str t),
           ("timezone", Json.str z), ("reset_schedule", Json.str "true")]) }] ∧
    (jsGet body "reset_schedule" = none → resetScheduleV1 body = Json.bool true) ∧
    (∀ b : Bool, jsGet body "reset_schedule" = some (Json.bool b) →
      resetScheduleV1 body = Json.bool b) := by
  have hs0 : (sid == 0) = false := by simpa using hsid
  have ha0 : (aid == 0) = false := by simpa using haid
  have htr : jsTruthyOpt (jsGet body "attempt_id") = (aid != 0) := by
    simp [jsTruthyOpt, ha, Json.truthy]
  have hnum : jsNumberOfOpt (jsGet body "attempt_id") = some aid := by
    simp [jsNumberOfOpt, ha, jsNumberOf]
  have hd0 : (d == "") = false := by simpa using hd'
  have ht0 : (t == "") = false := by simpa using ht'
  have hz0 : (z == "") = false := by simpa using hz'
  have haid' : (aid != 0) = true := by simpa using haid
  refine ⟨?_, ?_, ?_, ?_⟩
  · cases u2 with
    | error e =>
        simp [rescheduleV1, rescheduleWith, hs0, hd, ht, hz, htr, hnum, hd0, ht0, hz0,
          haid', jsNumFalsy, ha0, finishReschedule]
    | ok r =>
        cases hok : r.ok <;>
          simp [rescheduleV1, rescheduleWith, hs0, hd, ht, hz, htr, hnum, hd0, ht0, hz0,
            haid', jsNumFalsy, ha0, finishReschedule, hok]
  · cases u2 with
    | error e =>
        simp [rescheduleV2, rescheduleWith, hs0, hd, ht, hz, htr, hnum, hd0, ht0, hz0,
          haid', jsNumFalsy, ha0, finishReschedule, resetScheduleV2]
    | ok r =>
        cases hok : r.ok <;>
          simp [rescheduleV2, rescheduleWith, hs0, hd, ht, hz, htr, hnum, hd0, ht0, hz0,
            haid', jsNumFalsy, ha0, finishReschedule, resetScheduleV2, hok]
  · intro h; simp [resetScheduleV1, h]
  · intro b h; cases b <;> simp [resetScheduleV1, h]

/-- Witness for C9 (amended): the caller supplies `reset_schedule: false`
with attempt id 42; V1 forwards the boolean `false`, V2 the string
`"true"`. -/
theorem reschedule_reset_forward_amended_witness :
    (rescheduleV1 (some 5) (some (Json.obj [("date", Json.str "2025-12-01"),
        ("time", Json.str "09:00"), ("timezone", Json.str "America/Chicago"),
        ("reset_schedule", Json.bool false), ("attempt_id", Json.num 42)]))
      (Except.error "unused")
      (Except.ok { ok := true, status := 200, body := Json.null })).2 =
      [{ path := "/subscription-billing-attempt", method := "PUT",
         body := some (Json.obj [("id", Json.num 42), ("subscription_id", Json.num 5),
           ("action", Json.str "reschedule"), ("date", Json.str "2025-12-01"),
           ("time", Json.str "09:00"), ("timezone", Json.str "America/Chicago"),
           ("reset_schedule", resetScheduleV1 (some (Json.obj [("date", Json.str "2025-12-01"),
             ("time", Json.str "09:00"), ("timezone", Json.str "America/Chicago"),
             ("reset_schedule", Json.bool false), ("attempt_id", Json.num 42)])))]) }] ∧
    resetScheduleV1 (some (Json.obj [("date", Json.str "2025-12-01"),
      ("time", Json.str "09:00"), ("timezone", Json.str "America/Chicago"),
      ("reset_schedule", Json.bool false), ("attempt_id", Json.num 42)])) =
        Json.bool false :=
  ⟨(reschedule_reset_forward_amended 5 42 (by decide) (by decide)
      (some (Json.obj [("date", Json.str "2025-12-01"),
        ("time", Json.str "09:00"), ("timezone", Json.str "America/Chicago"),
        ("reset_schedule", Json.bool false), ("attempt_id", Json.num 42)])) "2025-12-01" "09:00"
      "America/Chicago" rfl (by decide) rfl (by decide) rfl (by decide) rfl
      (Except.error "unused")
      (Except.ok { ok := true, status := 200, body := Json.null })).1,
   (reschedule_reset_forward_amended 5 42 (by decide) (by decide)
      (some (Json.obj [("date", Json.str "2025-12-01"),
        ("time", Json.str "09:00"), ("timezone", Json.str "America/Chicago"),
        ("reset_schedule", Json.bool false), ("attempt_id", Json.num 42)])) "2025-12-01" "09:00"
      "America/Chicago" rfl (by decide) rfl (by decide) rfl (by decide) rfl
      (Except.error "unused")
      (Except.ok { ok := true, status := 200, body := Json.null })).2.2.2 false rfl⟩

/-- The attempt selected from a non-empty list is one of its elements. -/
theorem selectAttempt_mem (arr : List Json) (h : arr ≠ []) : selectAttempt arr ∈ arr := by
  have hp := List.perm_insertionSort (fun a b => attemptKey a ≤ attemptKey b) arr
  rcases hs : List.insertionSort (fun a b => attemptKey a ≤ attemptKey b) arr with _ | ⟨x, xs⟩
  · rw [hs] at hp
    exact absurd (List.length_eq_zero.mp hp.length_eq.symm) h
  · have hx : selectAttempt arr = x := by simp [selectAttempt, hs]
    rw [hx]
    exact hp.mem_iff.mp (hs ▸ List.mem_cons_self x xs)

/-- The attempt selected has a minimal sort key among the fetched attempts. -/
theorem selectAttempt_min (arr : List Json) (c : Json) (hc : c ∈ arr) :
    attemptKey (selectAttempt arr) ≤ attemptKey c := by
  haveI : IsTotal Json (fun a b => attemptKey a ≤ attemptKey b) :=
    ⟨fun a b => Int.le_total (attemptKey a) (attemptKey b)⟩
  haveI : IsTrans Json (fun a b => attemptKey a ≤ attemptKey b) :=
    ⟨fun _ _ _ hab hbc => le_trans hab hbc⟩
  have hsort := List.sorted_insertionSort (fun a b => attemptKey a ≤ attemptKey b) arr
  have hp := List.perm_insertionSort (fun a b => attemptKey a ≤ attemptKey b) arr
  have hc' : c ∈ List.insertionSort (fun a b => attemptKey a ≤ attemptKey b) arr :=
    hp.mem_iff.mpr hc
  rcases hs : List.insertionSort (fun a b => attemptKey a ≤ attemptKey b) arr with _ | ⟨x, xs⟩
  · rw [hs] at hc'; cases hc'
  · rw [hs] at hc' hsort
    have hx : selectAttempt arr = x := by simp [selectAttempt, hs]
    rw [hx]
    rcases List.mem_cons.mp hc' with rfl | hmem
    · exact le_refl _
    · exact (List.sorted_cons.mp hsort).1 c hmem

/-- C4: in a reschedule without a caller-supplied `attempt_id` and with a
non-empty upstream attempts array, the selected attempt belongs to the
fetched array and minimizes the scheduled timestamp — the first truthy of
`date_time`, `datetime`, `scheduled_at`, defaulting to epoch 0 when all are
absent — and its id (as converted by `Number`) is the id carried in the body
of the subsequent `PUT /subscription-billing-attempt` call, in both
variants. -/
theorem reschedule_selects_earliest (sid aid : Int) (hsid : sid ≠ 0)
    (body : Option Json) (d t z : String)
    (hd : jsTrimStr (jsGet body "date") = .ok d) (hd' : d ≠ "")
    (ht : jsTrimStr (jsGet body "time") = .ok t) (ht' : t ≠ "")
    (hz : jsTrimStr (jsGet body "timezone") = .ok z) (hz' : z ≠ "")
    (hna : jsTruthyOpt (jsGet body "attempt_id") = false)
    (r : SealResult) (hr : r.ok = true)
    (harr : extractAttempts r.body ≠ [])
    (haid : jsNumberOfOpt ((selectAttempt (extractAttempts r.body)).get "id") = some aid)
    (haid0 : aid ≠ 0) (u2 : Except String SealResult) :
    selectAttempt (extractAttempts r.body) ∈ extractAttempts r.body ∧
    (∀ c ∈ extractAttempts r.body,
      attemptKey (selectAttempt (extractAttempts r.body)) ≤ attemptKey c) ∧
    (∀ a : Json, a.get "date_time" = none → a.get "datetime" = none →
      a.get "scheduled_at" = none → attemptKey a = 0) ∧
    (rescheduleV1 (some sid) body (Except.ok r) u2).2 =
      [{ path := "/subscription-billing-attempts?subscription_id=" ++ toString sid,
         method := "GET", body := none },
       { path := "/subscription-billing-attempt", method := "PUT",
         body := some (Json.obj [("id", Json.num aid), ("subscription_id", Json.num sid),
           ("action", Json.str "reschedule"), ("date", Json.str d), ("time", Json.str t),
           ("timezone", Json.str z), ("reset_schedule", resetScheduleV1 body)]) }] ∧
    (rescheduleV2 (some sid) body (Except.ok r) u2).2 =
      [{ path := "/subscription-billing-attempts?subscription_id=" ++ toString sid,
         method := "GET", body := none },
       { path := "/subscription-billing-attempt", method := "PUT",
         body := some (Json.obj [("id", Json.num aid), ("subscription_id", Json.num sid),
           ("action", Json.str "reschedule"), ("date", Json.str d), ("time", Json.str t),
           ("timezone", Json.str z), ("reset_schedule", Json.str "true")]) }] := by
  have hs0 : (sid == 0) = false := by simpa using hsid
  have ha0 : (aid == 0) = false := by simpa using haid0
  have hd0 : (d == "") = false := by simpa using hd'
  have ht0 : (t == "") = false := by simpa using ht'
  have hz0 : (z == "") = false := by simpa using hz'
  have hlen : (extractAttempts r.body).length > 0 := List.length_pos.mpr harr
  refine ⟨selectAttempt_mem _ harr, fun c hc => selectAttempt_min _ c hc, ?_, ?_, ?_⟩
  · intro a h1 h2 h3
    simp [attemptKey, jsOr, h1, h2, h3, dateValue]
  · cases u2 with
    | error e =>
        simp only [rescheduleV1, rescheduleWith, hs0, hd, ht, hz, hna, hd0, ht0, hz0,
          jsNumFalsy, hr, hlen, haid, ha0, finishReschedule]
        simp [haid0]
    | ok r2 =>
        cases hok : r2.ok <;>
          simp only [rescheduleV1, rescheduleWith, hs0, hd, ht, hz, hna, hd0, ht0, hz0,
            jsNumFalsy, hr, hlen, haid, ha0, finishReschedule, hok] <;> simp [haid0]
  · cases u2 with
    | error e =>
        simp only [rescheduleV2, rescheduleWith, hs0, hd, ht, hz, hna, hd0, ht0, hz0,
          jsNumFalsy, hr, hlen, haid, ha0, finishReschedule, resetScheduleV2]
        simp [haid0]
    | ok r2 =>
        cases hok : r2.ok <;>
          simp only [rescheduleV2, rescheduleWith, hs0, hd, ht, hz, hna, hd0, ht0, hz0,
            jsNumFalsy, hr, hlen, haid, ha0, finishReschedule, resetScheduleV2, hok] <;> simp [haid0]

/-- Witness for C4 at the spec's example: of the timestamps
2025-11-12T00:00, 2025-11-10T09:30 and 2025-11-15T00:00 the attempt with id
2 (2025-11-10T09:30, the earliest) is selected and its id is forwarded. -/
theorem reschedule_selects_earliest_witness :
    jsNumberOfOpt ((selectAttempt (extractAttempts attemptsRespExample.body)).get "id") =
      some 2 ∧
    (rescheduleV1 (some 5) (some rescheduleBodyExample)
      (Except.ok attemptsRespExample)
      (Except.ok { ok := true, status := 200, body := Json.null })).2 =
      [{ path := "/subscription-billing-attempts?subscription_id=" ++ toString (5 : Int),
         method := "GET", body := none },
       { path := "/subscription-billing-attempt", method := "PUT",
         body := some (Json.obj [("id", Json.num 2), ("subscription_id", Json.num 5),
           ("action", Json.str "reschedule"), ("date", Json.str "2025-12-01"),
           ("time", Json.str "09:00"), ("timezone", Json.str "America/Chicago"),
           ("reset_schedule", resetScheduleV1 (some rescheduleBodyExample))]) }] :=
  ⟨rfl,
   (reschedule_selects_earliest 5 2 (by decide) (some rescheduleBodyExample)
      "2025-12-01" "09:00" "America/Chicago" rfl (by decide) rfl (by decide) rfl
      (by decide) rfl attemptsRespExample rfl
      (List.length_pos.mp (by decide)) rfl (by decide)
      (Except.ok { ok := true, status := 200, body := Json.null })).2.2.2.1⟩

/-- A 400 response body has no `error.reason` field (its `error` field is a
plain string), so it carries no bridge-generated reason. -/
theorem allowedReason_resp400 (msg : String) :
    allowedReason (respReason (resp400 msg)) := by
  have he : respReason (resp400 msg) = none := rfl
  rw [he]; trivial

/-- An `{error: {reason: v, ...}}` body whose reason is allowed is allowed. -/
theorem allowedReason_errBody (v : Json) (rest : List (String × Json))
    (h : allowedReason (some v)) :
    allowedReason (respReason (resp200 (errBody (("reason", v) :: rest)))) := by
  have he : respReason (resp200 (errBody (("reason", v) :: rest))) = some v := rfl
  rw [he]; exact h

/-- A `{subscriptions: [], error: {reason: v, ...}}` body whose reason is
allowed is allowed. -/
theorem allowedReason_emptySubsErr (v : Json) (rest : List (String × Json))
    (h : allowedReason (some v)) :
    allowedReason (respReason (resp200 (emptySubsErr (("reason", v) :: rest)))) := by
  have he : respReason (resp200 (emptySubsErr (("reason", v) :: rest))) = some v := rfl
  rw [he]; exact h

/-- An option known to be `none` is an allowed reason. -/
theorem allowedReason_none (o : Option Json) (h : o = none) : allowedReason o := by
  rw [h]; trivial

/-- The list handler's success body has no `error` field. -/
theorem respReason_list_success (xs : List Json) :
    respReason (resp200 (Json.obj [("subscriptions", Json.arr xs)])) = none := rfl

/-- The list handler always answers 200 with an allowed reason (or no
bridge-generated error at all), for every envelope probe. -/
theorem listSubscriptionsWith_ok (extract : Json → List Json) (email : Option Json)
    (u : Except String SealResult) :
    (listSubscriptionsWith extract email u).1.status = 200 ∧
    allowedReason (respReason (listSubscriptionsWith extract email u).1) := by
  cases u <;> simp only [listSubscriptionsWith] <;> repeat' split
  all_goals
    first
      | exact ⟨rfl, allowedReason_emptySubsErr _ _ (Or.inr (Or.inr (Or.inr rfl)))⟩
      | exact ⟨rfl, allowedReason_emptySubsErr _ _ (Or.inr (Or.inr (Or.inl rfl)))⟩
      | exact ⟨rfl, allowedReason_emptySubsErr _ _ (Or.inl rfl)⟩
      | exact ⟨rfl, allowedReason_none _ (respReason_list_success _)⟩

/-- V1's status-change handler answers 200 or 400; every response is either
one with an allowed bridge-generated reason or the upstream success body
passed through. -/
theorem statusChangeV1_ok (idNum : Option Int) (body : Option Json)
    (u : Except String SealResult) :
    ((statusChangeV1 idNum body u).1.status = 200 ∨
      (statusChangeV1 idNum body u).1.status = 400) ∧
    (allowedReason (respReason (statusChangeV1 idNum body u).1) ∨
      (statusChangeV1 idNum body u).1.body = upstreamBody u) := by
  cases idNum <;> cases u <;> simp only [statusChangeV1] <;> repeat' split
  all_goals
    first
      | exact ⟨Or.inr rfl, Or.inl (allowedReason_resp400 _)⟩
      | exact ⟨Or.inl rfl, Or.inl (allowedReason_errBody _ _ (Or.inr (Or.inr (Or.inl rfl))))⟩
      | exact ⟨Or.inl rfl, Or.inl (allowedReason_errBody _ _ (Or.inl rfl))⟩
      | exact ⟨Or.inl rfl, Or.inr rfl⟩

/-- V2's status-change handler: same classification as V1's. -/
theorem statusChangeV2_ok (idNum : Option Int) (body : Option Json)
    (u : Except String SealResult) :
    ((statusChangeV2 idNum body u).1.status = 200 ∨
      (statusChangeV2 idNum body u).1.status = 400) ∧
    (allowedReason (respReason (statusChangeV2 idNum body u).1) ∨
      (statusChangeV2 idNum body u).1.body = upstreamBody u) := by
  cases idNum <;> cases u <;> simp only [statusChangeV2] <;> repeat' split
  all_goals
    first
      | exact ⟨Or.inr rfl, Or.inl (allowedReason_resp400 _)⟩
      | exact ⟨Or.inl rfl, Or.inl (allowedReason_errBody _ _ (Or.inr (Or.inr (Or.inl rfl))))⟩
      | exact ⟨Or.inl rfl, Or.inl (allowedReason_errBody _ _ (Or.inl rfl))⟩
      | exact ⟨Or.inl rfl, Or.inr rfl⟩

/-- The charge-now handler: same classification. -/
theorem chargeNowV2_ok (idNum : Option Int) (body : Option Json)
    (u : Except String SealResult) :
    ((chargeNowV2 idNum body u).1.status = 200 ∨
      (chargeNowV2 idNum body u).1.status = 400) ∧
    (allowedReason (respReason (chargeNowV2 idNum body u).1) ∨
      (chargeNowV2 idNum body u).1.body = upstreamBody u) := by
  cases idNum <;> cases u <;> simp only [chargeNowV2] <;> repeat' split
  all_goals
    first
      | exact ⟨Or.inr rfl, Or.inl (allowedReason_resp400 _)⟩
      | exact ⟨Or.inl rfl, Or.inl (allowedReason_errBody _ _ (Or.inr (Or.inr (Or.inl rfl))))⟩
      | exact ⟨Or.inl rfl, Or.inl (allowedReason_errBody _ _ (Or.inl rfl))⟩
      | exact ⟨Or.inl rfl, Or.inr rfl⟩

/-- The reschedule tail always answers 200 with an allowed reason (its
success body nests the upstream result under `result`, leaving no top-level
`error` field). -/
theorem finishReschedule_ok (resetVal : Json) (sid : Int) (d t z : String)
    (attemptId : Option Int) (calls : List UpstreamCall)
    (u : Except String SealResult) :
    (finishReschedule resetVal sid d t z attemptId calls u).1.status = 200 ∧
    allowedReason (respReason (finishReschedule resetVal sid d t z attemptId calls u).1) := by
  cases attemptId <;> cases u <;> simp only [finishReschedule] <;> repeat' split
  all_goals
    first
      | exact ⟨rfl, allowedReason_errBody _ _ (Or.inr (Or.inl rfl))⟩
      | exact ⟨rfl, allowedReason_errBody _ _ (Or.inr (Or.inr (Or.inl rfl)))⟩
      | exact ⟨rfl, allowedReason_errBody _ _ (Or.inl rfl)⟩
      | exact ⟨rfl, allowedReason_none _ rfl⟩

/-- The reschedule handler (either variant's `resetVal`) answers 200 or 400,
always with an allowed bridge-generated reason. -/
theorem rescheduleWith_ok (resetVal : Option Json → Json) (idNum : Option Int)
    (body : Option Json) (u1 u2 : Except String SealResult) :
    ((rescheduleWith resetVal idNum body u1 u2).1.status = 200 ∨
      (rescheduleWith resetVal idNum body u1 u2).1.status = 400) ∧
    allowedReason (respReason (rescheduleWith resetVal idNum body u1 u2).1) := by
  cases idNum <;> cases u1 <;> simp only [rescheduleWith] <;> repeat' split
  all_goals
    first
      | exact ⟨Or.inr rfl, allowedReason_resp400 _⟩
      | exact ⟨Or.inl rfl, allowedReason_errBody _ _ (Or.inr (Or.inr (Or.inl rfl)))⟩
      | exact ⟨Or.inl rfl, allowedReason_errBody _ _ (Or.inl rfl)⟩
      | exact ⟨Or.inl (finishReschedule_ok _ _ _ _ _ _ _ _).1,
          (finishReschedule_ok _ _ _ _ _ _ _ _).2⟩

/-- A guarded route either rejects with 401 and no upstream call, or behaves
exactly as its handler. -/
theorem runGuarded_cases (auth : Option String) (secret : String)
    (h : Unit → Outcome) :
    ((runGuarded auth secret h).1.status = 401 ∧ (runGuarded auth secret h).2 = []) ∨
      runGuarded auth secret h = h () := by
  unfold runGuarded
  split
  · exact Or.inr rfl
  · exact Or.inl ⟨rfl, rfl⟩

/-- A 200 response has status 200. -/
theorem resp200_status (b : Json) : (resp200 b).status = 200 := rfl

/-- The reason of an `{error: {reason: v, ...}}` response. -/
theorem respReason_errBody (v : Json) (rest : List (String × Json)) :
    respReason (resp200 (errBody (("reason", v) :: rest))) = some v := rfl

/-- The reason of a `{subscriptions: [], error: {reason: v, ...}}` response. -/
theorem respReason_emptySubsErr (v : Json) (rest : List (String × Json)) :
    respReason (resp200 (emptySubsErr (("reason", v) :: rest))) = some v := rfl

/-- The reason of a `bridge_exception` response. -/
theorem respReason_bridgeExc (m : String) :
    respReason (resp200 (bridgeExcBody m)) = some (Json.str "bridge_exception") := rfl

/-- The reason of an `upstream_error` response. -/
theorem respReason_upstreamErr (st : Nat) (b : Json) :
    respReason (resp200 (upstreamErrBody st b)) = some (Json.str "upstream_error") := rfl

/-- List handler, empty email: 200 with reason `missing_email`. -/
theorem listSubscriptionsWith_missing_email (extract : Json → List Json)
    (email : Option Json) (u : Except String SealResult)
    (he : jsTrim (jsToString (jsOr email (Json.str ""))) = "") :
    (listSubscriptionsWith extract email u).1.status = 200 ∧
    respReason (listSubscriptionsWith extract email u).1 =
      some (Json.str "missing_email") := by
  simp only [listSubscriptionsWith, he]
  simp [respReason_emptySubsErr, resp200_status]

/-- List handler, transport failure after validation: 200 with reason
`bridge_exception`. -/
theorem listSubscriptionsWith_transport (extract : Json → List Json)
    (email : Option Json) (e : String)
    (he : jsTrim (jsToString (jsOr email (Json.str ""))) ≠ "") :
    (listSubscriptionsWith extract email (Except.error e)).1.status = 200 ∧
    respReason (listSubscriptionsWith extract email (Except.error e)).1 =
      some (Json.str "bridge_exception") := by
  simp only [listSubscriptionsWith]
  rw [if_neg he]
  simp [respReason_emptySubsErr, resp200_status]

/-- List handler, upstream non-2xx after validation: 200 with reason
`upstream_error`. -/
theorem listSubscriptionsWith_upstream_fail (extract : Json → List Json)
    (email : Option Json) (r : SealResult)
    (he : jsTrim (jsToString (jsOr email (Json.str ""))) ≠ "") (hok : r.ok = false) :
    (listSubscriptionsWith extract email (Except.ok r)).1.status = 200 ∧
    respReason (listSubscriptionsWith extract email (Except.ok r)).1 =
      some (Json.str "upstream_error") := by
  simp only [listSubscriptionsWith]
  rw [if_neg he]
  simp [hok, respReason_emptySubsErr, resp200_status]

/-- V1 status-change, transport failure after validation: 200 with reason
`bridge_exception`. -/
theorem statusChangeV1_transport (id : Int) (hid : id ≠ 0) (body : Option Json)
    (e : String)
    (hact : jsToLower (jsToString (jsOr (jsGet body "action") (Json.str ""))) ≠ "")
    (hcon : (["pause", "resume", "cancel", "reactivate"].contains
        (jsToLower (jsToString (jsOr (jsGet body "action") (Json.str ""))))) = true) :
    (statusChangeV1 (some id) body (Except.error e)).1.status = 200 ∧
    respReason (statusChangeV1 (some id) body (Except.error e)).1 =
      some (Json.str "bridge_exception") := by
  have h0 : (id == 0) = false := by simpa using hid
  have hne' : (jsToLower (jsToString (jsOr (jsGet body "action") (Json.str ""))) == "")
      = false := by simpa using hact
  simp only [statusChangeV1, h0, hne', hcon]
  simp [respReason_bridgeExc, resp200_status]

/-- V1 status-change, upstream non-2xx after validation: 200 with reason
`upstream_error`. -/
theorem statusChangeV1_upstream_fail (id : Int) (hid : id ≠ 0) (body : Option Json)
    (r : SealResult) (hok : r.ok = false)
    (hact : jsToLower (jsToString (jsOr (jsGet body "action") (Json.str ""))) ≠ "")
    (hcon : (["pause", "resume", "cancel", "reactivate"].contains
        (jsToLower (jsToString (jsOr (jsGet body "action") (Json.str ""))))) = true) :
    (statusChangeV1 (some id) body (Except.ok r)).1.status = 200 ∧
    respReason (statusChangeV1 (some id) body (Except.ok r)).1 =
      some (Json.str "upstream_error") := by
  have h0 : (id == 0) = false := by simpa using hid
  have hne' : (jsToLower (jsToString (jsOr (jsGet body "action") (Json.str ""))) == "")
      = false := by simpa using hact
  simp only [statusChangeV1, h0, hne', hcon, hok]
  simp [respReason_errBody, resp200_status]

/-- V2 status-change, transport failure after validation: 200 with reason
`bridge_exception`. -/
theorem statusChangeV2_transport (id : Int) (hid : id ≠ 0) (body : Option Json)
    (e : String)
    (hact : jsToString (jsOr (jsGet body "action") (Json.str "")) ≠ "") :
    (statusChangeV2 (some id) body (Except.error e)).1.status = 200 ∧
    respReason (statusChangeV2 (some id) body (Except.error e)).1 =
      some (Json.str "bridge_exception") := by
  have h0 : (id == 0) = false := by simpa using hid
  have hne' : (jsToString (jsOr (jsGet body "action") (Json.str "")) == "") = false := by
    simpa using hact
  simp only [statusChangeV2, h0, hne']
  simp [respReason_bridgeExc, resp200_status]

/-- V2 status-change, upstream non-2xx after validation: 200 with reason
`upstream_error`. -/
theorem statusChangeV2_upstream_fail (id : Int) (hid : id ≠ 0) (body : Option Json)
    (r : SealResult) (hok : r.ok = false)
    (hact : jsToString (jsOr (jsGet body "action") (Json.str "")) ≠ "") :
    (statusChangeV2 (some id) body (Except.ok r)).1.status = 200 ∧
    respReason (statusChangeV2 (some id) body (Except.ok r)).1 =
      some (Json.str "upstream_error") := by
  have h0 : (id == 0) = false := by simpa using hid
  have hne' : (jsToString (jsOr (jsGet body "action") (Json.str "")) == "") = false := by
    simpa using hact
  simp only [statusChangeV2, h0, hne', hok]
  simp [respReason_upstreamErr, resp200_status]

/-- Charge-now, transport failure after validation: 200 with reason
`bridge_exception`. -/
theorem chargeNowV2_transport (id : Int) (hid : id ≠ 0) (body : Option Json)
    (e : String) :
    (chargeNowV2 (some id) body (Except.error e)).1.status = 200 ∧
    respReason (chargeNowV2 (some id) body (Except.error e)).1 =
      some (Json.str "bridge_exception") := by
  have h0 : (id == 0) = false := by simpa using hid
  simp only [chargeNowV2, h0]
  simp [respReason_bridgeExc, resp200_status]

/-- Charge-now, upstream non-2xx after validation: 200 with reason
`upstream_error`. -/
theorem chargeNowV2_upstream_fail (id : Int) (hid : id ≠ 0) (body : Option Json)
    (r : SealResult) (hok : r.ok = false) :
    (chargeNowV2 (some id) body (Except.ok r)).1.status = 200 ∧
    respReason (chargeNowV2 (some id) body (Except.ok r)).1 =
      some (Json.str "upstream_error") := by
  have h0 : (id == 0) = false := by simpa using hid
  simp only [chargeNowV2, h0, hok]
  simp [respReason_upstreamErr, resp200_status]

/-- Reschedule with a caller-supplied attempt id, transport failure in the
reschedule call: 200 with reason `bridge_exception` (either variant's
`resetVal`). -/
theorem rescheduleWith_attempt_transport (rv : Option Json → Json) (sid aid : Int)
    (hsid : sid ≠ 0) (haid : aid ≠ 0) (body : Option Json) (d t z : String)
    (hd : jsTrimStr (jsGet body "date") = .ok d) (hd' : d ≠ "")
    (ht : jsTrimStr (jsGet body "time") = .ok t) (ht' : t ≠ "")
    (hz : jsTrimStr (jsGet body "timezone") = .ok z) (hz' : z ≠ "")
    (htr : jsTruthyOpt (jsGet body "attempt_id") = true)
    (hnum : jsNumberOfOpt (jsGet body "attempt_id") = some aid)
    (u1 : Except String SealResult) (e : String) :
    (rescheduleWith rv (some sid) body u1 (Except.error e)).1.status = 200 ∧
    respReason (rescheduleWith rv (some sid) body u1 (Except.error e)).1 =
      some (Json.str "bridge_exception") := by
  have hs0 : (sid == 0) = false := by simpa using hsid
  have ha0 : (aid == 0) = false := by simpa using haid
  have hd0 : (d == "") = false := by simpa using hd'
  have ht0 : (t == "") = false := by simpa using ht'
  have hz0 : (z == "") = false := by simpa using hz'
  simp only [rescheduleWith, hs0, hd, ht, hz, htr, hnum, hd0, ht0, hz0, jsNumFalsy,
    ha0, finishReschedule]
  simp [haid, respReason_bridgeExc, resp200_status]

/-- Reschedule with a caller-supplied attempt id, upstream non-2xx in the
reschedule call: 200 with reason `upstream_error`. -/
theorem rescheduleWith_attempt_upstream_fail (rv : Option Json → Json) (sid aid : Int)
    (hsid : sid ≠ 0) (haid : aid ≠ 0) (body : Option Json) (d t z : String)
    (hd : jsTrimStr (jsGet body "date") = .ok d) (hd' : d ≠ "")
    (ht : jsTrimStr (jsGet body "time") = .ok t) (ht' : t ≠ "")
    (hz : jsTrimStr (jsGet body "timezone") = .ok z) (hz' : z ≠ "")
    (htr : jsTruthyOpt (jsGet body "attempt_id") = true)
    (hnum : jsNumberOfOpt (jsGet body "attempt_id") = some aid)
    (u1 : Except String SealResult) (r2 : SealResult) (hok : r2.ok = false) :
    (rescheduleWith rv (some sid) body u1 (Except.ok r2)).1.status = 200 ∧
    respReason (rescheduleWith rv (some sid) body u1 (Except.ok r2)).1 =
      some (Json.str "upstream_error") := by
  have hs0 : (sid == 0) = false := by simpa using hsid
  have ha0 : (aid == 0) = false := by simpa using haid
  have hd0 : (d == "") = false := by simpa using hd'
  have ht0 : (t == "") = false := by simpa using ht'
  have hz0 : (z == "") = false := by simpa using hz'
  simp only [rescheduleWith, hs0, hd, ht, hz, htr, hnum, hd0, ht0, hz0, jsNumFalsy,
    ha0, finishReschedule, hok]
  simp [haid, respReason_upstreamErr, resp200_status]

/-- Reschedule without a caller-supplied attempt id, transport failure in the
attempts fetch: 200 with reason `bridge_exception`. -/
theorem rescheduleWith_fetch_transport (rv : Option Json → Json) (sid : Int)
    (hsid : sid ≠ 0) (body : Option Json) (d t z : String)
    (hd : jsTrimStr (jsGet body "date") = .ok d) (hd' : d ≠ "")
    (ht : jsTrimStr (jsGet body "time") = .ok t) (ht' : t ≠ "")
    (hz : jsTrimStr (jsGet body "timezone") = .ok z) (hz' : z ≠ "")
    (htr : jsTruthyOpt (jsGet body "attempt_id") = false)
    (e : String) (u2 : Except String SealResult) :
    (rescheduleWith rv (some sid) body (Except.error e) u2).1.status = 200 ∧
    respReason (rescheduleWith rv (some sid) body (Except.error e) u2).1 =
      some (Json.str "bridge_exception") := by
  have hs0 : (sid == 0) = false := by simpa using hsid
  have hd0 : (d == "") = false := by simpa using hd'
  have ht0 : (t == "") = false := by simpa using ht'
  have hz0 : (z == "") = false := by simpa using hz'
  simp only [rescheduleWith, hs0, hd, ht, hz, htr, hd0, ht0, hz0, jsNumFalsy]
  simp [respReason_bridgeExc, resp200_status]

/-- Reschedule without a caller-supplied attempt id, upstream non-2xx in the
attempts fetch: 200 with reason `upstream_error`. -/
theorem rescheduleWith_fetch_upstream_fail (rv : Option Json → Json) (sid : Int)
    (hsid : sid ≠ 0) (body : Option Json) (d t z : String)
    (hd : jsTrimStr (jsGet body "date") = .ok d) (hd' : d ≠ "")
    (ht : jsTrimStr (jsGet body "time") = .ok t) (ht' : t ≠ "")
    (hz : jsTrimStr (jsGet body "timezone") = .ok z) (hz' : z ≠ "")
    (htr : jsTruthyOpt (jsGet body "attempt_id") = false)
    (r : SealResult) (hok : r.ok = false) (u2 : Except String SealResult) :
    (rescheduleWith rv (some sid) body (Except.ok r) u2).1.status = 200 ∧
    respReason (rescheduleWith rv (some sid) body (Except.ok r) u2).1 =
      some (Json.str "upstream_error") := by
  have hs0 : (sid == 0) = false := by simpa using hsid
  have hd0 : (d == "") = false := by simpa using hd'
  have ht0 : (t == "") = false := by simpa using ht'
  have hz0 : (z == "") = false := by simpa using hz'
  simp only [rescheduleWith, hs0, hd, ht, hz, htr, hd0, ht0, hz0, jsNumFalsy, hok]
  simp [respReason_upstreamErr, resp200_status]

/-- Reschedule without a caller-supplied attempt id, successful fetch with an
empty attempts array: 200 with reason `no_billing_attempt_found`. -/
theorem rescheduleWith_no_attempt (rv : Option Json → Json) (sid : Int)
    (hsid : sid ≠ 0) (body : Option Json) (d t z : String)
    (hd : jsTrimStr (jsGet body "date") = .ok d) (hd' : d ≠ "")
    (ht : jsTrimStr (jsGet body "time") = .ok t) (ht' : t ≠ "")
    (hz : jsTrimStr (jsGet body "timezone") = .ok z) (hz' : z ≠ "")
    (htr : jsTruthyOpt (jsGet body "attempt_id") = false)
    (r : SealResult) (hok : r.ok = true) (harr : extractAttempts r.body = [])
    (u2 : Except String SealResult) :
    (rescheduleWith rv (some sid) body (Except.ok r) u2).1.status = 200 ∧
    respReason (rescheduleWith rv (some sid) body (Except.ok r) u2).1 =
      some (Json.str "no_billing_attempt_found") := by
  have hs0 : (sid == 0) = false := by simpa using hsid
  have hd0 : (d == "") = false := by simpa using hd'
  have ht0 : (t == "") = false := by simpa using ht'
  have hz0 : (z == "") = false := by simpa using hz'
  simp only [rescheduleWith, hs0, hd, ht, hz, htr, hd0, ht0, hz0, jsNumFalsy, hok,
    harr, finishReschedule]
  simp [respReason_errBody, resp200_status]

/-- C6: for every operation and all inputs, the handler status is 200 or 400
(never a 5xx; with the auth guard, 401 is the only addition) and every
bridge-generated `error.reason` is one of `upstream_error`,
`no_billing_attempt_found`, `bridge_exception`, `missing_email`; moreover,
for every request that passes input validation, each non-validation outcome
yields status 200 (not 400) with the structured error field carrying the
documented reason: a missing email gives `missing_email`; an upstream
transport failure gives `bridge_exception`; an upstream non-2xx response
gives `upstream_error`; an empty billing-attempts list gives
`no_billing_attempt_found` — in every handler of both variants. -/
theorem error_taxonomy_no_5xx (email : Option Json) (idNum : Option Int)
    (body : Option Json) (u u2 : Except String SealResult)
    (auth : Option String) (secret : String) (h : Unit → Outcome) :
    ((listSubscriptionsV1 email u).1.status = 200 ∧
      allowedReason (respReason (listSubscriptionsV1 email u).1)) ∧
    ((listSubscriptionsV2 email u).1.status = 200 ∧
      allowedReason (respReason (listSubscriptionsV2 email u).1)) ∧
    (((statusChangeV1 idNum body u).1.status = 200 ∨
        (statusChangeV1 idNum body u).1.status = 400) ∧
      (allowedReason (respReason (statusChangeV1 idNum body u).1) ∨
        (statusChangeV1 idNum body u).1.body = upstreamBody u)) ∧
    (((statusChangeV2 idNum body u).1.status = 200 ∨
        (statusChangeV2 idNum body u).1.status = 400) ∧
      (allowedReason (respReason (statusChangeV2 idNum body u).1) ∨
        (statusChangeV2 idNum body u).1.body = upstreamBody u)) ∧
    (((chargeNowV2 idNum body u).1.status = 200 ∨
        (chargeNowV2 idNum body u).1.status = 400) ∧
      (allowedReason (respReason (chargeNowV2 idNum body u).1) ∨
        (chargeNowV2 idNum body u).1.body = upstreamBody u)) ∧
    (((rescheduleV1 idNum body u u2).1.status = 200 ∨
        (rescheduleV1 idNum body u u2).1.status = 400) ∧
      allowedReason (respReason (rescheduleV1 idNum body u u2).1)) ∧
    (((rescheduleV2 idNum body u u2).1.status = 200 ∨
        (rescheduleV2 idNum body u u2).1.status = 400) ∧
      allowedReason (respReason (rescheduleV2 idNum body u u2).1)) ∧
    (((runGuarded auth secret h).1.status = 401 ∧ (runGuarded auth secret h).2 = []) ∨
      runGuarded auth secret h = h ()) ∧
    (jsTrim (jsToString (jsOr email (Json.str ""))) = "" →
      ((listSubscriptionsV1 email u).1.status = 200 ∧
        respReason (listSubscriptionsV1 email u).1 = some (Json.str "missing_email")) ∧
      ((listSubscriptionsV2 email u).1.status = 200 ∧
        respReason (listSubscriptionsV2 email u).1 = some (Json.str "missing_email"))) ∧
    (jsTrim (jsToString (jsOr email (Json.str ""))) ≠ "" →
      (∀ e, u = Except.error e →
        ((listSubscriptionsV1 email u).1.status = 200 ∧
          respReason (listSubscriptionsV1 email u).1 =
            some (Json.str "bridge_exception")) ∧
        ((listSubscriptionsV2 email u).1.status = 200 ∧
          respReason (listSubscriptionsV2 email u).1 =
            some (Json.str "bridge_exception"))) ∧
      (∀ r, u = Except.ok r → r.ok = false →
        ((listSubscriptionsV1 email u).1.status = 200 ∧
          respReason (listSubscriptionsV1 email u).1 =
            some (Json.str "upstream_error")) ∧
        ((listSubscriptionsV2 email u).1.status = 200 ∧
          respReason (listSubscriptionsV2 email u).1 =
            some (Json.str "upstream_error")))) ∧
    (∀ id : Int, idNum = some id → id ≠ 0 →
      ((jsToLower (jsToString (jsOr (jsGet body "action") (Json.str ""))) ≠ "" →
        (["pause", "resume", "cancel", "reactivate"].contains
          (jsToLower (jsToString (jsOr (jsGet body "action") (Json.str ""))))) = true →
        (∀ e, u = Except.error e →
          (statusChangeV1 idNum body u).1.status = 200 ∧
          respReason (statusChangeV1 idNum body u).1 =
            some (Json.str "bridge_exception")) ∧
        (∀ r, u = Except.ok r → r.ok = false →
          (statusChangeV1 idNum body u).1.status = 200 ∧
          respReason (statusChangeV1 idNum body u).1 =
            some (Json.str "upstream_error"))) ∧
      (jsToString (jsOr (jsGet body "action") (Json.str "")) ≠ "" →
        (∀ e, u = Except.error e →
          (statusChangeV2 idNum body u).1.status = 200 ∧
          respReason (statusChangeV2 idNum body u).1 =
            some (Json.str "bridge_exception")) ∧
        (∀ r, u = Except.ok r → r.ok = false →
          (statusChangeV2 idNum body u).1.status = 200 ∧
          respReason (statusChangeV2 idNum body u).1 =
            some (Json.str "upstream_error"))) ∧
      ((∀ e, u = Except.error e →
          (chargeNowV2 idNum body u).1.status = 200 ∧
          respReason (chargeNowV2 idNum body u).1 =
            some (Json.str "bridge_exception")) ∧
        (∀ r, u = Except.ok r → r.ok = false →
          (chargeNowV2 idNum body u).1.status = 200 ∧
          respReason (chargeNowV2 idNum body u).1 =
            some (Json.str "upstream_error"))))) ∧
    (∀ (rv : Option Json → Json) (sid : Int), idNum = some sid → sid ≠ 0 →
      ∀ d t z : String, jsTrimStr (jsGet body "date") = .ok d → d ≠ "" →
        jsTrimStr (jsGet body "time") = .ok t → t ≠ "" →
        jsTrimStr (jsGet body "timezone") = .ok z → z ≠ "" →
      ((∀ aid : Int, jsTruthyOpt (jsGet body "attempt_id") = true →
          jsNumberOfOpt (jsGet body "attempt_id") = some aid → aid ≠ 0 →
        (∀ e, u2 = Except.error e →
          (rescheduleWith rv idNum body u u2).1.status = 200 ∧
          respReason (rescheduleWith rv idNum body u u2).1 =
            some (Json.str "bridge_exception")) ∧
        (∀ r2, u2 = Except.ok r2 → r2.ok = false →
          (rescheduleWith rv idNum body u u2).1.status = 200 ∧
          respReason (rescheduleWith rv idNum body u u2).1 =
            some (Json.str "upstream_error"))) ∧
      (jsTruthyOpt (jsGet body "attempt_id") = false →
        (∀ e, u = Except.error e →
          (rescheduleWith rv idNum body u u2).1.status = 200 ∧
          respReason (rescheduleWith rv idNum body u u2).1 =
            some (Json.str "bridge_exception")) ∧
        (∀ r, u = Except.ok r → r.ok = false →
          (rescheduleWith rv idNum body u u2).1.status = 200 ∧
          respReason (rescheduleWith rv idNum body u u2).1 =
            some (Json.str "upstream_error")) ∧
        (∀ r, u = Except.ok r → r.ok = true → extractAttempts r.body = [] →
          (rescheduleWith rv idNum body u u2).1.status = 200 ∧
          respReason (rescheduleWith rv idNum body u u2).1 =
            some (Json.str "no_billing_attempt_found"))))) := by
  refine ⟨listSubscriptionsWith_ok extractListV1 email u,
    listSubscriptionsWith_ok extractListV2 email u,
    statusChangeV1_ok idNum body u,
    statusChangeV2_ok idNum body u,
    chargeNowV2_ok idNum body u,
    rescheduleWith_ok resetScheduleV1 idNum body u u2,
    rescheduleWith_ok resetScheduleV2 idNum body u u2,
    runGuarded_cases auth secret h,
    ?_, ?_, ?_, ?_⟩
  · intro he
    exact ⟨listSubscriptionsWith_missing_email extractListV1 email u he,
           listSubscriptionsWith_missing_email extractListV2 email u he⟩
  · intro he
    refine ⟨?_, ?_⟩
    · rintro e rfl
      exact ⟨listSubscriptionsWith_transport extractListV1 email e he,
             listSubscriptionsWith_transport extractListV2 email e he⟩
    · rintro r rfl hok
      exact ⟨listSubscriptionsWith_upstream_fail extractListV1 email r he hok,
             listSubscriptionsWith_upstream_fail extractListV2 email r he hok⟩
  · rintro id rfl hid
    refine ⟨?_, ?_, ?_⟩
    · intro hact hcon
      constructor
      · rintro e rfl
        exact statusChangeV1_transport id hid body e hact hcon
      · rintro r rfl hok
        exact statusChangeV1_upstream_fail id hid body r hok hact hcon
    · intro hact
      constructor
      · rintro e rfl
        exact statusChangeV2_transport id hid body e hact
      · rintro r rfl hok
        exact statusChangeV2_upstream_fail id hid body r hok hact
    · constructor
      · rintro e rfl
        exact chargeNowV2_transport id hid body e
      · rintro r rfl hok
        exact chargeNowV2_upstream_fail id hid body r hok
  · rintro rv sid rfl hsid d t z hd hd' ht ht' hz hz'
    refine ⟨?_, ?_⟩
    · rintro aid htr hnum haid
      refine ⟨?_, ?_⟩
      · rintro e rfl
        exact rescheduleWith_attempt_transport rv sid aid hsid haid body d t z
          hd hd' ht ht' hz hz' htr hnum u e
      · rintro r2 rfl hok
        exact rescheduleWith_attempt_upstream_fail rv sid aid hsid haid body d t z
          hd hd' ht ht' hz hz' htr hnum u r2 hok
    · intro htr
      refine ⟨?_, ?_, ?_⟩
      · rintro e rfl
        exact rescheduleWith_fetch_transport rv sid hsid body d t z
          hd hd' ht ht' hz hz' htr e u2
      · rintro r rfl hok
        exact rescheduleWith_fetch_upstream_fail rv sid hsid body d t z
          hd hd' ht ht' hz hz' htr r hok u2
      · rintro r rfl hok harr
        exact rescheduleWith_no_attempt rv sid hsid body d t z
          hd hd' ht ht' hz hz' htr r hok harr u2

/-- Witness for C6: an upstream 502 on the list operation yields 200 with
reason `upstream_error`; a transport failure on charge-now yields 200 with
reason `bridge_exception`; a successful fetch of zero billing attempts on
reschedule yields 200 with reason `no_billing_attempt_found`. -/
theorem error_taxonomy_no_5xx_witness :
    ((listSubscriptionsV1 (some (Json.str "a@b.c"))
        (Except.ok { ok := false, status := 502, body := Json.null })).1.status = 200 ∧
      respReason (listSubscriptionsV1 (some (Json.str "a@b.c"))
        (Except.ok { ok := false, status := 502, body := Json.null })).1 =
        some (Json.str "upstream_error")) ∧
    ((chargeNowV2 (some 3) none (Except.error "boom")).1.status = 200 ∧
      respReason (chargeNowV2 (some 3) none (Except.error "boom")).1 =
        some (Json.str "bridge_exception")) ∧
    ((rescheduleWith resetScheduleV2 (some 7) (some rescheduleBodyExample)
        (Except.ok emptyAttemptsResp)
        (Except.error "y")).1.status = 200 ∧
      respReason (rescheduleWith resetScheduleV2 (some 7) (some rescheduleBodyExample)
        (Except.ok emptyAttemptsResp)
        (Except.error "y")).1 = some (Json.str "no_billing_attempt_found")) :=
  ⟨(((error_taxonomy_no_5xx (some (Json.str "a@b.c")) (some 1) none
      (Except.ok { ok := false, status := 502, body := Json.null }) (Except.error "z")
      none "s" (fun _ => (resp200 Json.null, []))).2.2.2.2.2.2.2.2.2.1
        (by decide)).2
      { ok := false, status := 502, body := Json.null } rfl rfl).1,
   ((error_taxonomy_no_5xx none (some 3) none (Except.error "boom") (Except.error "z")
      none "s" (fun _ => (resp200 Json.null, []))).2.2.2.2.2.2.2.2.2.2.1
        3 rfl (by decide)).2.2.1 "boom" rfl,
   (((error_taxonomy_no_5xx none (some 7) (some rescheduleBodyExample)
      (Except.ok emptyAttemptsResp)
      (Except.error "y") none "s" (fun _ => (resp200 Json.null, []))).2.2.2.2.2.2.2.2.2.2.2
        resetScheduleV2 7 rfl (by decide) "2025-12-01" "09:00" "America/Chicago"
        rfl (by decide) rfl (by decide) rfl (by decide)).2 rfl).2.2
      emptyAttemptsResp rfl rfl rfl⟩

end SealBridge
